import Mathlib

/-!
Verification of the visualization state-and-render engine of a Spotify data
analytics dashboard (static/app.js): tick formatting, bar-chart sorting,
zoom reset, metric switching, dashboard data integration, scale domains,
the refresh handle, the scatter jitter update, tooltip instances, and hover
behavior.  Numeric data values are modelled as rationals (tick inputs as
naturals), and stateful DOM behavior as explicit state passing.
-/

namespace SpotifyDash

/-- Model of JavaScript toFixed applied to the quotient d / k followed by
stripping a trailing .0 (the replace in the source): rounds d / k to one
decimal, ties rounding up, and prints either an integer string or a string
with one digit after the dot. -/
def fixed1 (d k : Nat) : String :=
  let n := (10 * d + k / 2) / k
  if n % 10 = 0 then toString (n / 10)
  else toString (n / 10) ++ "." ++ toString (n % 10)

namespace ScatterPlot

/-- Tick format of the scatter plot, transcribed from createScatterPlot. -/
def customFormat (d : Nat) : String :=
  if d ≥ 1000000000 then fixed1 d 1000000000 ++ "B"
  else if d ≥ 1000000 then fixed1 d 1000000 ++ "M"
  else if d ≥ 1000 then fixed1 d 1000 ++ "K"
  else toString d

end ScatterPlot

namespace TopArtistChart

/-- Tick format of the ranked bar chart, transcribed from createTopArtistChart. -/
def customFormat (d : Nat) : String :=
  if d ≥ 1000000000 then fixed1 d 1000000000 ++ "B"
  else if d ≥ 1000000 then fixed1 d 1000000 ++ "M"
  else if d ≥ 1000 then fixed1 d 1000 ++ "K"
  else toString d

end TopArtistChart

namespace PlatformComparison

/-- Tick format of the comparison chart, transcribed from createPlatformComparison. -/
def customFormat (d : Nat) : String :=
  if d ≥ 1000000000 then fixed1 d 1000000000 ++ "B"
  else if d ≥ 1000000 then fixed1 d 1000000 ++ "M"
  else if d ≥ 1000 then fixed1 d 1000 ++ "K"
  else toString d

end PlatformComparison

/-- C1: the tick-format function used by all three charts maps v at or above
a power-of-ten threshold to the quotient rounded to one decimal with a
trailing .0 stripped and the matching B, M or K suffix, and smaller v to its
integer string; the stated concrete values hold; and the three chart format
functions are extensionally identical. -/
theorem c1_tick_format :
    (∀ v : Nat, ScatterPlot.customFormat v = TopArtistChart.customFormat v) ∧
    (∀ v : Nat, ScatterPlot.customFormat v = PlatformComparison.customFormat v) ∧
    (∀ v : Nat, 1000000000 ≤ v →
      ScatterPlot.customFormat v = fixed1 v 1000000000 ++ "B") ∧
    (∀ v : Nat, 1000000 ≤ v → v < 1000000000 →
      ScatterPlot.customFormat v = fixed1 v 1000000 ++ "M") ∧
    (∀ v : Nat, 1000 ≤ v → v < 1000000 →
      ScatterPlot.customFormat v = fixed1 v 1000 ++ "K") ∧
    (∀ v : Nat, v < 1000 → ScatterPlot.customFormat v = toString v) ∧
    ScatterPlot.customFormat 999 = "999" ∧
    ScatterPlot.customFormat 1000 = "1K" ∧
    ScatterPlot.customFormat 1500 = "1.5K" ∧
    ScatterPlot.customFormat 1000000 = "1M" ∧
    ScatterPlot.customFormat 2000000000 = "2B" := by
  refine ⟨fun v => rfl, fun v => rfl, ?_, ?_, ?_, ?_, ?_, ?_, ?_, ?_, ?_⟩
  · intro v h
    rw [ScatterPlot.customFormat, if_pos h]
  · intro v h1 h2
    rw [ScatterPlot.customFormat, if_neg (by omega), if_pos h1]
  · intro v h1 h2
    rw [ScatterPlot.customFormat, if_neg (by omega), if_neg (by omega), if_pos h1]
  · intro v h
    rw [ScatterPlot.customFormat, if_neg (by omega), if_neg (by omega),
      if_neg (by omega)]
  · decide
  · decide
  · decide
  · decide
  · decide

/-- Witness for c1_tick_format: its small-value branch evaluated at 500. -/
theorem c1_tick_format_witness : ScatterPlot.customFormat 500 = toString 500 :=
  c1_tick_format.2.2.2.2.2.1 500 (by decide)

/-- Artist record of the ranked bar chart: artist name (stable key) and
stream count. -/
structure ArtistRec where
  artist : String
  streams : ℚ
deriving DecidableEq

/-- The comparator passed to sort when the new direction is ascending:
d3.ascending on the streams field.  A JavaScript stable sort orders a
before b exactly when this holds (ties keep original order). -/
def ascStreams (a b : ArtistRec) : Prop := a.streams ≤ b.streams

/-- The comparator passed to sort when the new direction is descending:
d3.descending on the streams field. -/
def descStreams (a b : ArtistRec) : Prop := b.streams ≤ a.streams

instance : DecidableRel ascStreams := fun a b =>
  inferInstanceAs (Decidable (a.streams ≤ b.streams))

instance : DecidableRel descStreams := fun a b =>
  inferInstanceAs (Decidable (b.streams ≤ a.streams))

instance : IsTotal ArtistRec ascStreams := ⟨fun a b => le_total a.streams b.streams⟩

instance : IsTrans ArtistRec ascStreams := ⟨fun _ _ _ h1 h2 => le_trans h1 h2⟩

instance : IsTotal ArtistRec descStreams := ⟨fun a b => le_total b.streams a.streams⟩

instance : IsTrans ArtistRec descStreams := ⟨fun _ _ _ h1 h2 => le_trans h2 h1⟩

/-- View state of the ranked bar chart: the module-level sortedAscending
toggle, the data array, and the band scale domain. -/
structure BarChartState where
  sortedAscending : Bool
  data : List ArtistRec
  yDomain : List String
deriving DecidableEq

/-- Initial bar chart state from createTopArtistChart: sortedAscending
starts true and the band scale domain is data.map(artist). -/
def initTopArtistChart (data : List ArtistRec) : BarChartState :=
  { sortedAscending := true, data := data
    yDomain := data.map (fun d => d.artist) }

/-- One click of the Sort control, transcribed from sortBars: toggle the
flag, stably re-sort the data in place by streams in the new direction
(ascending when the toggled flag is true), and set the band scale domain to
the artists of the newly sorted data. -/
def sortBars (s : BarChartState) : BarChartState :=
  let asc := !s.sortedAscending
  let sorted := if asc then s.data.insertionSort ascStreams
    else s.data.insertionSort descStreams
  { sortedAscending := asc, data := sorted
    yDomain := sorted.map (fun d => d.artist) }

/-- Predicate picking the records whose streams value is v; the filter by
this predicate is how stability of the sort is stated. -/
def streamsIs (v : ℚ) (d : ArtistRec) : Bool := decide (d.streams = v)

theorem filter_orderedInsert_of_imp {α : Type _} (r : α → α → Prop)
    [DecidableRel r] (p : α → Bool) (a : α)
    (h : ∀ b, p a = true → ¬ r a b → p b = false) :
    ∀ l : List α, (l.orderedInsert r a).filter p =
      if p a then a :: l.filter p else l.filter p := by
  intro l
  induction l with
  | nil =>
    by_cases hp : p a <;> simp [List.orderedInsert, List.filter, hp]
  | cons b t ih =>
    by_cases hr : r a b
    · by_cases hp : p a <;>
        simp [List.orderedInsert, hr, List.filter_cons, hp]
    · by_cases hp : p a
      · have hb : p b = false := h b hp hr
        simp [List.orderedInsert, hr, List.filter_cons, hb, hp, ih]
      · by_cases hb : p b <;>
          simp [List.orderedInsert, hr, List.filter_cons, hb, hp, ih]

theorem filter_insertionSort_of_imp {α : Type _} (r : α → α → Prop)
    [DecidableRel r] (p : α → Bool)
    (h : ∀ a b, p a = true → ¬ r a b → p b = false) :
    ∀ l : List α, (l.insertionSort r).filter p = l.filter p := by
  intro l
  induction l with
  | nil => rfl
  | cons a t ih =>
    rw [List.insertionSort, filter_orderedInsert_of_imp r p a (h a), ih,
      List.filter_cons]

theorem streamsIs_imp_asc (v : ℚ) : ∀ a b : ArtistRec,
    streamsIs v a = true → ¬ ascStreams a b → streamsIs v b = false := by
  intro a b ha hr
  simp only [streamsIs, decide_eq_true_eq] at ha
  simp only [streamsIs, decide_eq_false_iff_not]
  simp only [ascStreams, not_le] at hr
  intro he
  rw [he, ha] at hr
  exact lt_irrefl v hr

theorem streamsIs_imp_desc (v : ℚ) : ∀ a b : ArtistRec,
    streamsIs v a = true → ¬ descStreams a b → streamsIs v b = false := by
  intro a b ha hr
  simp only [streamsIs, decide_eq_true_eq] at ha
  simp only [streamsIs, decide_eq_false_iff_not]
  simp only [descStreams, not_le] at hr
  intro he
  rw [he, ha] at hr
  exact lt_irrefl v hr

/-- Two lists sorted ascending by streams whose filters agree on every
streams value are equal: sortedness plus stability determine the result. -/
theorem eq_of_sorted_asc_of_filter_eq {l₁ : List ArtistRec} :
    ∀ {l₂ : List ArtistRec}, l₁.Sorted ascStreams → l₂.Sorted ascStreams →
      (∀ v : ℚ, l₁.filter (streamsIs v) = l₂.filter (streamsIs v)) →
      l₁ = l₂ := by
  induction l₁ with
  | nil =>
    intro l₂ _ _ hf
    cases l₂ with
    | nil => rfl
    | cons b t₂ =>
      have hb := hf b.streams
      rw [List.filter_nil, List.filter_cons] at hb
      simp [streamsIs] at hb
  | cons a t₁ ih =>
    intro l₂ h₁ h₂ hf
    cases l₂ with
    | nil =>
      have ha := hf a.streams
      rw [List.filter_nil, List.filter_cons] at ha
      simp [streamsIs] at ha
    | cons b t₂ =>
      have hab : a.streams = b.streams := by
        by_contra hne
        have hfa := hf a.streams
        have hfb := hf b.streams
        rw [List.filter_cons, List.filter_cons] at hfa hfb
        rw [if_pos (by simp [streamsIs]),
          if_neg (by simp [streamsIs]; exact fun h => hne h.symm)] at hfa
        rw [if_neg (by simp [streamsIs]; exact hne),
          if_pos (by simp [streamsIs])] at hfb
        have hmem₂ : a ∈ t₂ := by
          have ha2 : a ∈ List.filter (streamsIs a.streams) t₂ := by
            rw [← hfa]; exact List.mem_cons_self a _
          exact List.mem_of_mem_filter ha2
        have hmem₁ : b ∈ t₁ := by
          have hb1 : b ∈ List.filter (streamsIs b.streams) t₁ := by
            rw [hfb]; exact List.mem_cons_self b _
          exact List.mem_of_mem_filter hb1
        have hba : ascStreams b a := List.rel_of_sorted_cons h₂ a hmem₂
        have hab2 : ascStreams a b := List.rel_of_sorted_cons h₁ b hmem₁
        exact hne (le_antisymm hab2 hba)
      have hfa := hf a.streams
      rw [List.filter_cons, List.filter_cons, if_pos (by simp [streamsIs]),
        if_pos (by simp [streamsIs, hab])] at hfa
      obtain ⟨head, -⟩ := List.cons_eq_cons.mp hfa
      have tails : ∀ v : ℚ, t₁.filter (streamsIs v) = t₂.filter (streamsIs v) := by
        intro v
        have hv := hf v
        rw [List.filter_cons, List.filter_cons] at hv
        by_cases hva : streamsIs v a = true
        · rw [if_pos hva, if_pos (head ▸ hva)] at hv
          exact (List.cons_eq_cons.mp hv).2
        · rw [if_neg hva, if_neg (by rw [← head]; exact hva)] at hv
          exact hv
      rw [head, ih h₁.of_cons h₂.of_cons tails]

/-- Stably sorting descending and then stably sorting ascending gives the
stable ascending sort of the original array. -/
theorem insertionSort_asc_of_desc (l : List ArtistRec) :
    (l.insertionSort descStreams).insertionSort ascStreams =
      l.insertionSort ascStreams := by
  apply eq_of_sorted_asc_of_filter_eq (List.sorted_insertionSort ascStreams _)
    (List.sorted_insertionSort ascStreams l)
  intro v
  rw [filter_insertionSort_of_imp ascStreams _ (streamsIs_imp_asc v),
    filter_insertionSort_of_imp descStreams _ (streamsIs_imp_desc v),
    filter_insertionSort_of_imp ascStreams _ (streamsIs_imp_asc v)]

/-- C2 counterexample: for the artist array [("A", 2), ("B", 1)] (with the
initial ascending flag of the source), clicking the sort toggle twice does
not return the array to its original order — it leaves it ascending. -/
theorem c2_counterexample :
    ¬ ((sortBars (sortBars (initTopArtistChart
        ([⟨"A", 2⟩, ⟨"B", 1⟩] : List ArtistRec)))).data =
      (initTopArtistChart ([⟨"A", 2⟩, ⟨"B", 1⟩] : List ArtistRec)).data) := by
  decide

/-- C2 amended: one click of the sort toggle flips the direction flag and
stably re-sorts the data in place by streams in the new direction (the
first click from the initial state sorts descending), keeping equal-streams
entries in their original relative order (equal filters on every streams
value) and setting the band scale domain to the artists of the sorted data;
clicking twice from the initial state leaves the array stably sorted
ascending by streams (a permutation of, but in general not equal to, the
original order). -/
theorem c2_sort_toggle (s : BarChartState) :
    (sortBars s).sortedAscending = !s.sortedAscending ∧
    (s.sortedAscending = false →
      (sortBars s).data = s.data.insertionSort ascStreams ∧
      (sortBars s).data.Sorted ascStreams) ∧
    (s.sortedAscending = true →
      (sortBars s).data = s.data.insertionSort descStreams ∧
      (sortBars s).data.Sorted descStreams) ∧
    (sortBars s).data.Perm s.data ∧
    (∀ v : ℚ, (sortBars s).data.filter (streamsIs v) =
      s.data.filter (streamsIs v)) ∧
    (sortBars s).yDomain = (sortBars s).data.map (fun d => d.artist) ∧
    (s.sortedAscending = true →
      (sortBars (sortBars s)).sortedAscending = true ∧
      (sortBars (sortBars s)).data = s.data.insertionSort ascStreams) := by
  obtain ⟨flag, data, dom⟩ := s
  cases flag
  · exact ⟨rfl,
      fun _ => ⟨rfl, List.sorted_insertionSort ascStreams data⟩,
      fun h => Bool.noConfusion h,
      List.perm_insertionSort ascStreams data,
      fun v => filter_insertionSort_of_imp ascStreams _ (streamsIs_imp_asc v) data,
      rfl,
      fun h => Bool.noConfusion h⟩
  · exact ⟨rfl,
      fun h => Bool.noConfusion h,
      fun _ => ⟨rfl, List.sorted_insertionSort descStreams data⟩,
      List.perm_insertionSort descStreams data,
      fun v => filter_insertionSort_of_imp descStreams _ (streamsIs_imp_desc v) data,
      rfl,
      fun _ => ⟨rfl, insertionSort_asc_of_desc data⟩⟩

/-- Witness for c2_sort_toggle: the double-toggle clause evaluated on the
two-artist example state. -/
theorem c2_sort_toggle_witness :
    (sortBars (sortBars (initTopArtistChart
        ([⟨"A", 2⟩, ⟨"B", 1⟩] : List ArtistRec)))).data =
      (initTopArtistChart
        ([⟨"A", 2⟩, ⟨"B", 1⟩] : List ArtistRec)).data.insertionSort ascStreams :=
  ((c2_sort_toggle _).2.2.2.2.2.2 rfl).2

/-- Affine zoom transform maintained by the d3 zoom behavior of the
scatter plot: scale factor and translation. -/
structure ZoomTransform where
  k : ℚ
  tx : ℚ
  ty : ℚ
deriving DecidableEq

/-- The d3 identity transform. -/
def zoomIdentity : ZoomTransform := ⟨1, 0, 0⟩

/-- Lower bound of the scaleExtent configured on the zoom behavior. -/
def scaleExtentMin : ℚ := 1/2

/-- Upper bound of the scaleExtent configured on the zoom behavior. -/
def scaleExtentMax : ℚ := 5

/-- Clamp applied by the zoom behavior to the scale factor of every
gesture, per the configured scaleExtent. -/
def clampScale (k : ℚ) : ℚ := max scaleExtentMin (min scaleExtentMax k)

/-- One wheel or drag gesture composed incrementally into the maintained
transform: the new scale factor is the clamped product, the translation is
set by the gesture. -/
def gestureZoom (t : ZoomTransform) (factor tx ty : ℚ) : ZoomTransform :=
  ⟨clampScale (t.k * factor), tx, ty⟩

/-- The resetZoom click handler: transition the transform back to the
identity, regardless of the prior transform. -/
def resetZoom (_t : ZoomTransform) : ZoomTransform := zoomIdentity

/-- Duration in milliseconds of the reset transition in resetZoom. -/
def resetZoomDuration : Nat := 750

/-- Transforms reachable from chart construction by gestures and resets. -/
inductive ZoomReachable : ZoomTransform → Prop
  | init : ZoomReachable zoomIdentity
  | gesture {t : ZoomTransform} (factor tx ty : ℚ) :
      ZoomReachable t → ZoomReachable (gestureZoom t factor tx ty)
  | reset {t : ZoomTransform} : ZoomReachable t → ZoomReachable (resetZoom t)

/-- C3: for every prior transform, the zoom reset yields the identity
transform with scale 1 and zero translation, animated over 750 ms, and
every reachable transform has its scale factor clamped to the interval
from 0.5 to 5. -/
theorem c3_zoom_reset :
    (∀ t : ZoomTransform, resetZoom t = ⟨1, 0, 0⟩) ∧
    resetZoomDuration = 750 ∧
    (∀ t : ZoomTransform, ZoomReachable t →
      scaleExtentMin ≤ t.k ∧ t.k ≤ scaleExtentMax) := by
  refine ⟨fun t => rfl, rfl, ?_⟩
  intro t h
  induction h with
  | init =>
    exact ⟨by norm_num [zoomIdentity, scaleExtentMin],
      by norm_num [zoomIdentity, scaleExtentMax]⟩
  | gesture factor tx ty _ _ =>
    exact ⟨le_max_left _ _,
      max_le (by norm_num [scaleExtentMin, scaleExtentMax]) (min_le_left _ _)⟩
  | reset _ _ =>
    exact ⟨by norm_num [resetZoom, zoomIdentity, scaleExtentMin],
      by norm_num [resetZoom, zoomIdentity, scaleExtentMax]⟩

/-- Witness for c3_zoom_reset: the clamp bounds hold for the transform
reached by a single large wheel gesture from the identity. -/
theorem c3_zoom_reset_witness :
    scaleExtentMin ≤ (gestureZoom zoomIdentity 100 3 4).k ∧
      (gestureZoom zoomIdentity 100 3 4).k ≤ scaleExtentMax :=
  c3_zoom_reset.2.2 _ (ZoomReachable.gesture 100 3 4 ZoomReachable.init)

/-- The three comparison metrics selectable by the three controls. -/
inductive Metric where
  | total
  | average
  | median
deriving DecidableEq

/-- The string name of a metric as used in the source. -/
def Metric.name : Metric → String
  | .total => "total"
  | .average => "average"
  | .median => "median"

/-- Platform record of the comparison chart. -/
structure PlatformRec where
  platform : String
  total : ℚ
  average : ℚ
  median : ℚ
deriving DecidableEq

/-- Field access d[metric] for the active metric. -/
def metricValue (m : Metric) (d : PlatformRec) : ℚ :=
  match m with
  | .total => d.total
  | .average => d.average
  | .median => d.median

/-- Model of d3.max over an array of numbers: undefined (none) on an empty
array, otherwise the maximum. -/
def d3max (l : List ℚ) : Option ℚ :=
  match l with
  | [] => none
  | x :: xs => some (xs.foldl max x)

/-- Model of charAt(0).toUpperCase() + slice(1). -/
def capitalizeFirst (s : String) : String :=
  match s.toList with
  | [] => ""
  | c :: cs => String.mk (c.toUpper :: cs)

/-- Width from the comparison chart default config. -/
def cmpWidth : ℚ := 800

/-- Height from the comparison chart default config. -/
def cmpHeight : ℚ := 400

/-- Top margin from the comparison chart default config. -/
def cmpMarginTop : ℚ := 20

/-- Bottom margin from the comparison chart default config. -/
def cmpMarginBottom : ℚ := 60

/-- The linear y scale of the comparison chart: domain [0, dmax], range
[height - margin.bottom, margin.top]. -/
def cmpYScale (dmax v : ℚ) : ℚ :=
  (cmpHeight - cmpMarginBottom) +
    (v - 0) * ((cmpMarginTop - (cmpHeight - cmpMarginBottom)) / (dmax - 0))

/-- The bar height attribute: height - margin.bottom - y(d[metric]). -/
def cmpBarHeight (dmax v : ℚ) : ℚ :=
  cmpHeight - cmpMarginBottom - cmpYScale dmax v

/-- View state of the comparison chart touched by a metric control click. -/
structure ComparisonViewState where
  activeMetric : Metric
  yDomain : ℚ × Option ℚ
  yLabel : String
deriving DecidableEq

/-- updateChart(metric) of createPlatformComparison: recompute the y scale
domain [0, d3.max of the selected metric], re-position the bars, and set
the y axis label to the capitalized metric name followed by
" Streams/Views". -/
def updateChart (data : List PlatformRec) (m : Metric) : ComparisonViewState :=
  { activeMetric := m
    yDomain := (0, d3max (data.map (metricValue m)))
    yLabel := capitalizeFirst m.name ++ " Streams/Views" }

/-- C4: clicking a metric control makes that metric active, recomputes the
linear y domain as [0, max of that metric over the data], and sets the
y axis label to the capitalized metric name followed by " Streams/Views";
for the single Spotify record with median 5, selecting median gives y
domain max 5 and a bar of full plot height. -/
theorem c4_metric_switch :
    (∀ (data : List PlatformRec) (m : Metric),
      (updateChart data m).activeMetric = m) ∧
    (∀ (data : List PlatformRec) (m : Metric),
      (updateChart data m).yDomain = (0, d3max (data.map (metricValue m)))) ∧
    (∀ data : List PlatformRec,
      (updateChart data Metric.total).yLabel = "Total Streams/Views") ∧
    (∀ data : List PlatformRec,
      (updateChart data Metric.average).yLabel = "Average Streams/Views") ∧
    (∀ data : List PlatformRec,
      (updateChart data Metric.median).yLabel = "Median Streams/Views") ∧
    (updateChart ([⟨"Spotify", 100, 10, 5⟩] : List PlatformRec)
      Metric.median).yDomain = (0, some 5) ∧
    cmpBarHeight 5 5 = cmpHeight - cmpMarginTop - cmpMarginBottom := by
  refine ⟨fun data m => rfl, fun data m => rfl, fun data => rfl,
    fun data => rfl, fun data => rfl, rfl,
    by norm_num [cmpBarHeight, cmpYScale, cmpHeight, cmpMarginTop, cmpMarginBottom]⟩

/-- Outcome of one HTTP fetch: the promise rejects, or resolves with an ok
flag and a body that either parses as JSON (some payload) or fails to
parse (none, making json() throw). -/
inductive FetchResult (α : Type) where
  | rejected : FetchResult α
  | resolved (ok : Bool) (body : Option α) : FetchResult α
deriving DecidableEq

/-- Promise.all over the three fetches: rejects (none) as soon as any of
the three rejects, otherwise yields the three responses. -/
def promiseAll3 {α β γ : Type} :
    FetchResult α → FetchResult β → FetchResult γ →
      Option ((Bool × Option α) × (Bool × Option β) × (Bool × Option γ))
  | .resolved o₁ b₁, .resolved o₂ b₂, .resolved o₃ b₃ =>
    some ((o₁, b₁), (o₂, b₂), (o₃, b₃))
  | _, _, _ => none

/-- Observable outcome of one integrateVisualizations run: how many charts
were rendered, how many errors its catch logged, and whether a controller
object was returned. -/
structure IntegrationOutcome where
  chartsRendered : Nat
  errorsLogged : Nat
  controllerReturned : Bool
deriving DecidableEq

/-- integrateVisualizations: await all three fetches, convert each body
with json() (which throws on a body that is not JSON; the HTTP ok status
is never inspected), then map the data and build all three charts; the
catch renders nothing and logs a single error. -/
def integrateVisualizations {α β γ : Type}
    (ft : FetchResult α) (fa : FetchResult β) (fp : FetchResult γ) :
    IntegrationOutcome :=
  match promiseAll3 ft fa fp with
  | none => ⟨0, 1, false⟩
  | some (t, a, p) =>
    match t.2, a.2, p.2 with
    | some _, some _, some _ => ⟨3, 0, true⟩
    | _, _, _ => ⟨0, 1, false⟩

/-- Whether a fetch makes the try block throw: it rejects, or its body
fails JSON parsing. -/
def fetchThrows {α : Type} : FetchResult α → Bool
  | .rejected => true
  | .resolved _ none => true
  | .resolved _ (some _) => false

/-- C5 counterexample: three responses that are non-OK but carry JSON
bodies render all three charts and log no error, so a non-OK response does
not abort the render batch as the claim states. -/
theorem c5_counterexample :
    ¬ ((integrateVisualizations (FetchResult.resolved false (some ()))
          (FetchResult.resolved false (some ()))
          (FetchResult.resolved false (some ()))).chartsRendered = 0 ∧
        (integrateVisualizations (FetchResult.resolved false (some ()))
          (FetchResult.resolved false (some ()))
          (FetchResult.resolved false (some ()))).errorsLogged = 1) := by
  decide

/-- C5 amended: if any of the three requests rejects or its body fails
JSON parsing, the whole render batch is aborted with zero charts rendered,
exactly one error logged and no controller returned; otherwise all three
charts render with no error — the HTTP ok status is never checked, so a
non-OK response with a JSON body still renders. -/
theorem c5_fetch_failfast {α β γ : Type}
    (ft : FetchResult α) (fa : FetchResult β) (fp : FetchResult γ) :
    ((fetchThrows ft || fetchThrows fa || fetchThrows fp) = true →
      integrateVisualizations ft fa fp = ⟨0, 1, false⟩) ∧
    ((fetchThrows ft || fetchThrows fa || fetchThrows fp) = false →
      integrateVisualizations ft fa fp = ⟨3, 0, true⟩) := by
  rcases ft with _ | ⟨o₁, _ | b₁⟩ <;>
    rcases fa with _ | ⟨o₂, _ | b₂⟩ <;>
      rcases fp with _ | ⟨o₃, _ | b₃⟩ <;>
        refine ⟨?_, ?_⟩ <;> intro h <;>
          first
            | rfl
            | simp [fetchThrows] at h

/-- Witness for c5_fetch_failfast: a rejected tracks fetch aborts the
batch with one error. -/
theorem c5_fetch_failfast_witness :
    integrateVisualizations (FetchResult.rejected : FetchResult Unit)
      (FetchResult.resolved true (some ()))
      (FetchResult.resolved true (some ())) = ⟨0, 1, false⟩ :=
  (c5_fetch_failfast _ _ _).1 rfl

/-- Model of d3.min over an array of numbers: undefined (none) on an empty
array, otherwise the minimum. -/
def d3min (l : List ℚ) : Option ℚ :=
  match l with
  | [] => none
  | x :: xs => some (xs.foldl min x)

/-- Model of d3.extent: the pair of d3.min and d3.max. -/
def d3extent (l : List ℚ) : Option ℚ × Option ℚ := (d3min l, d3max l)

/-- Track record of the scatter plot. -/
structure TrackRec where
  streams : ℚ
  reach : ℚ
  track : String
  artist : String
deriving DecidableEq

/-- The x scale domain built by createScatterPlot: d3.extent of streams. -/
def scatterXDomain (data : List TrackRec) : Option ℚ × Option ℚ :=
  d3extent (data.map (fun d => d.streams))

/-- The y scale domain built by createScatterPlot: from 0 to d3.max of
reach. -/
def scatterYDomain (data : List TrackRec) : ℚ × Option ℚ :=
  (0, d3max (data.map (fun d => d.reach)))

theorem foldl_min_le_init : ∀ (xs : List ℚ) (x : ℚ), xs.foldl min x ≤ x
  | [], x => le_refl x
  | a :: t, x => le_trans (foldl_min_le_init t (min x a)) (min_le_left x a)

theorem foldl_min_le_mem : ∀ (xs : List ℚ) (x : ℚ), ∀ y ∈ xs,
    xs.foldl min x ≤ y := by
  intro xs
  induction xs with
  | nil => intro x y hy; exact absurd hy (List.not_mem_nil y)
  | cons a t ih =>
    intro x y hy
    rw [List.foldl_cons]
    rcases List.mem_cons.mp hy with h | h
    · subst h
      exact le_trans (foldl_min_le_init t (min x y)) (min_le_right x y)
    · exact ih (min x a) y h

theorem foldl_min_mem : ∀ (xs : List ℚ) (x : ℚ), xs.foldl min x ∈ x :: xs := by
  intro xs
  induction xs with
  | nil => intro x; exact List.mem_cons_self x []
  | cons a t ih =>
    intro x
    rw [List.foldl_cons]
    rcases List.mem_cons.mp (ih (min x a)) with h1 | h1
    · rcases min_choice x a with hm | hm
      · rw [h1, hm]; exact List.mem_cons_self _ _
      · rw [h1, hm]
        exact List.mem_cons_of_mem _ (List.mem_cons_self _ _)
    · exact List.mem_cons_of_mem _ (List.mem_cons_of_mem _ h1)

theorem foldl_max_init_le : ∀ (xs : List ℚ) (x : ℚ), x ≤ xs.foldl max x
  | [], x => le_refl x
  | a :: t, x => le_trans (le_max_left x a) (foldl_max_init_le t (max x a))

theorem foldl_max_mem_le : ∀ (xs : List ℚ) (x : ℚ), ∀ y ∈ xs,
    y ≤ xs.foldl max x := by
  intro xs
  induction xs with
  | nil => intro x y hy; exact absurd hy (List.not_mem_nil y)
  | cons a t ih =>
    intro x y hy
    rw [List.foldl_cons]
    rcases List.mem_cons.mp hy with h | h
    · subst h
      exact le_trans (le_max_right x y) (foldl_max_init_le t (max x y))
    · exact ih (max x a) y h

theorem foldl_max_mem : ∀ (xs : List ℚ) (x : ℚ), xs.foldl max x ∈ x :: xs := by
  intro xs
  induction xs with
  | nil => intro x; exact List.mem_cons_self x []
  | cons a t ih =>
    intro x
    rw [List.foldl_cons]
    rcases List.mem_cons.mp (ih (max x a)) with h1 | h1
    · rcases max_choice x a with hm | hm
      · rw [h1, hm]; exact List.mem_cons_self _ _
      · rw [h1, hm]
        exact List.mem_cons_of_mem _ (List.mem_cons_self _ _)
    · exact List.mem_cons_of_mem _ (List.mem_cons_of_mem _ h1)

/-- C6 counterexample: for the single track with streams 10 and reach 5,
the y domain built by the code starts at 0 while the minimum reach is 5,
so the scatter y domain is not [min reach, max reach] as claimed. -/
theorem c6_counterexample :
    (scatterYDomain ([⟨10, 5, "t", "a"⟩] : List TrackRec)).1 = 0 ∧
    d3min (([⟨10, 5, "t", "a"⟩] : List TrackRec).map (fun d => d.reach)) =
      some 5 ∧
    (0 : ℚ) ≠ 5 := by
  refine ⟨rfl, rfl, by norm_num⟩

/-- C6 amended: for every nonempty scatter dataset the x domain is the
exact [min, max] of the streams field, while the y domain is [0, max] of
the reach field (not [min, max]); the comparison chart linear domain is
[0, max of the active metric]. -/
theorem c6_scale_domains :
    (∀ (d : TrackRec) (rest : List TrackRec),
      ∃ m M : ℚ,
        scatterXDomain (d :: rest) = (some m, some M) ∧
        m ∈ (d :: rest).map (fun t => t.streams) ∧
        M ∈ (d :: rest).map (fun t => t.streams) ∧
        (∀ v ∈ (d :: rest).map (fun t => t.streams), m ≤ v ∧ v ≤ M)) ∧
    (∀ (d : TrackRec) (rest : List TrackRec),
      ∃ M : ℚ,
        scatterYDomain (d :: rest) = (0, some M) ∧
        M ∈ (d :: rest).map (fun t => t.reach) ∧
        ∀ v ∈ (d :: rest).map (fun t => t.reach), v ≤ M) ∧
    (∀ (data : List PlatformRec) (m : Metric),
      (updateChart data m).yDomain = (0, d3max (data.map (metricValue m)))) := by
  refine ⟨?_, ?_, fun data m => rfl⟩
  · intro d rest
    refine ⟨(rest.map (fun t => t.streams)).foldl min d.streams,
      (rest.map (fun t => t.streams)).foldl max d.streams, ?_, ?_, ?_, ?_⟩
    · rfl
    · exact foldl_min_mem _ _
    · exact foldl_max_mem _ _
    · intro v hv
      rcases List.mem_cons.mp hv with h | h
      · subst h
        exact ⟨foldl_min_le_init _ _, foldl_max_init_le _ _⟩
      · exact ⟨foldl_min_le_mem _ _ v h, foldl_max_mem_le _ _ v h⟩
  · intro d rest
    refine ⟨(rest.map (fun t => t.reach)).foldl max d.reach, ?_, ?_, ?_⟩
    · rfl
    · exact foldl_max_mem _ _
    · intro v hv
      rcases List.mem_cons.mp hv with h | h
      · subst h
        exact foldl_max_init_le _ _
      · exact foldl_max_mem_le _ _ v h

/-- Counts of the DOM elements the chart constructors append: svg elements
per chart card and tooltip divs on the document body.  initializeDashboard
clears the container with an innerHTML assignment; the three constructors
only ever append. -/
structure DomCounts where
  scatterSvgs : Nat
  barSvgs : Nat
  comparisonSvgs : Nat
  bodyTooltips : Nat
deriving DecidableEq

/-- DOM effect of createScatterPlot: appends one svg and one tooltip div. -/
def createScatterPlotDom (s : DomCounts) : DomCounts :=
  { s with scatterSvgs := s.scatterSvgs + 1, bodyTooltips := s.bodyTooltips + 1 }

/-- DOM effect of createTopArtistChart: appends one svg. -/
def createTopArtistChartDom (s : DomCounts) : DomCounts :=
  { s with barSvgs := s.barSvgs + 1 }

/-- DOM effect of createPlatformComparison: appends one svg and one
tooltip div. -/
def createPlatformComparisonDom (s : DomCounts) : DomCounts :=
  { s with
    comparisonSvgs := s.comparisonSvgs + 1
    bodyTooltips := s.bodyTooltips + 1 }

/-- DOM effect of a successful integrateVisualizations: the three chart
constructors run in order, each appending to whatever is already there. -/
def integrateVisualizationsDom (s : DomCounts) : DomCounts :=
  createPlatformComparisonDom (createTopArtistChartDom (createScatterPlotDom s))

/-- DOM state after initializeDashboard: the container starts empty and
the three charts are rendered once. -/
def initializeDashboardDom : DomCounts :=
  integrateVisualizationsDom ⟨0, 0, 0, 0⟩

/-- The refresh handle: an async arrow that calls integrateVisualizations
without awaiting or returning it.  First component: the DOM when the
promise returned by refresh resolves (before the inner re-render has
happened); second component: the DOM after the re-render completes. -/
def refresh (s : DomCounts) : DomCounts × DomCounts :=
  (s, integrateVisualizationsDom s)

/-- C7: calling refresh once after a successful initial render appends a
second svg per chart (and two more tooltip divs) instead of destroying and
replacing the prior elements, and the promise refresh returns resolves
while the DOM still holds only the prior render. -/
theorem c7_refresh_appends :
    initializeDashboardDom.scatterSvgs = 1 ∧
    initializeDashboardDom.barSvgs = 1 ∧
    initializeDashboardDom.comparisonSvgs = 1 ∧
    (refresh initializeDashboardDom).2.scatterSvgs = 2 ∧
    (refresh initializeDashboardDom).2.barSvgs = 2 ∧
    (refresh initializeDashboardDom).2.comparisonSvgs = 2 ∧
    (refresh initializeDashboardDom).2.bodyTooltips = 4 ∧
    (refresh initializeDashboardDom).1 = initializeDashboardDom := by
  decide

/-- The jitter factor 0.95 + random * 0.1 with random drawn in [0, 1). -/
def jitterFactor (r : ℚ) : ℚ := 95/100 + r * (1/10)

/-- One record mutation of the update body: streams and reach each
multiplied in place by an independent jitter factor. -/
def jitterTrack (d : TrackRec) (rs rr : ℚ) : TrackRec :=
  { d with
    streams := d.streams * jitterFactor rs
    reach := d.reach * jitterFactor rr }

/-- View state of the scatter plot: the scale domains fixed at
construction, and the data array. -/
structure ScatterState where
  xDomain : Option ℚ × Option ℚ
  yDomain : ℚ × Option ℚ
  data : List TrackRec
deriving DecidableEq

/-- The update click handler of the scatter plot: forEach over the data
applying the jitter to every record (one pair of random draws per record),
then re-position the circles with the existing scales; the scale domains
are not touched. -/
def scatterUpdate (st : ScatterState) (rands : List (ℚ × ℚ)) : ScatterState :=
  { st with
    data := (st.data.zip rands).map (fun p => jitterTrack p.1 p.2.1 p.2.2) }

/-- C8: one step of the jitter update leaves both scale domains unchanged
and multiplies the streams and reach of each record in place by factors in
[0.95, 1.05), which preserves non-negativity and sign. -/
theorem c8_jitter (st : ScatterState) (rands : List (ℚ × ℚ))
    (hlen : rands.length = st.data.length) :
    (scatterUpdate st rands).xDomain = st.xDomain ∧
    (scatterUpdate st rands).yDomain = st.yDomain ∧
    (scatterUpdate st rands).data.length = st.data.length ∧
    (scatterUpdate st rands).data =
      (st.data.zip rands).map (fun p => jitterTrack p.1 p.2.1 p.2.2) ∧
    (∀ (d : TrackRec) (rs rr : ℚ), 0 ≤ rs → rs < 1 → 0 ≤ rr → rr < 1 →
      (jitterTrack d rs rr).streams = d.streams * jitterFactor rs ∧
      (jitterTrack d rs rr).reach = d.reach * jitterFactor rr ∧
      19/20 ≤ jitterFactor rs ∧ jitterFactor rs < 21/20 ∧
      19/20 ≤ jitterFactor rr ∧ jitterFactor rr < 21/20 ∧
      (0 ≤ d.streams → 0 ≤ (jitterTrack d rs rr).streams) ∧
      (0 < d.streams → 0 < (jitterTrack d rs rr).streams) ∧
      (0 ≤ d.reach → 0 ≤ (jitterTrack d rs rr).reach) ∧
      (0 < d.reach → 0 < (jitterTrack d rs rr).reach)) := by
  refine ⟨rfl, rfl, ?_, rfl, ?_⟩
  · simp [scatterUpdate, hlen]
  · intro d rs rr h0s h1s h0r h1r
    have hfs0 : (19 : ℚ)/20 ≤ jitterFactor rs := by
      unfold jitterFactor; linarith
    have hfs1 : jitterFactor rs < 21/20 := by
      unfold jitterFactor; linarith
    have hfr0 : (19 : ℚ)/20 ≤ jitterFactor rr := by
      unfold jitterFactor; linarith
    have hfr1 : jitterFactor rr < 21/20 := by
      unfold jitterFactor; linarith
    have hs_pos : (0 : ℚ) < jitterFactor rs := lt_of_lt_of_le (by norm_num) hfs0
    have hr_pos : (0 : ℚ) < jitterFactor rr := lt_of_lt_of_le (by norm_num) hfr0
    refine ⟨rfl, rfl, hfs0, hfs1, hfr0, hfr1, ?_, ?_, ?_, ?_⟩
    · intro h
      exact mul_nonneg h (le_of_lt hs_pos)
    · intro h
      exact mul_pos h hs_pos
    · intro h
      exact mul_nonneg h (le_of_lt hr_pos)
    · intro h
      exact mul_pos h hr_pos

/-- Witness for c8_jitter: the frame part evaluated on a one-record
dataset with one random draw. -/
theorem c8_jitter_witness :
    (scatterUpdate ⟨(some 1, some 2), (0, some 3),
        ([⟨100, 200, "T", "A"⟩] : List TrackRec)⟩
      [((0 : ℚ), (1/2 : ℚ))]).xDomain = (some 1, some 2) :=
  (c8_jitter _ _ rfl).1

/-- Opacity state of the two tooltip divs: the one appended to the body by
the scatter plot and the one appended by the comparison chart. -/
structure TooltipState where
  scatterTooltipOpacity : ℚ
  comparisonTooltipOpacity : ℚ
deriving DecidableEq

/-- Both tooltips start hidden at opacity 0. -/
def initTooltips : TooltipState := ⟨0, 0⟩

/-- Mouseover on a scatter circle: show the scatter tooltip at 0.9. -/
def showScatterTooltip (st : TooltipState) : TooltipState :=
  { st with scatterTooltipOpacity := 9/10 }

/-- Mouseout on a scatter circle: hide the scatter tooltip. -/
def hideScatterTooltip (st : TooltipState) : TooltipState :=
  { st with scatterTooltipOpacity := 0 }

/-- Mouseover on a comparison bar: show the comparison tooltip at 0.9. -/
def showComparisonTooltip (st : TooltipState) : TooltipState :=
  { st with comparisonTooltipOpacity := 9/10 }

/-- Mouseout on a comparison bar: hide the comparison tooltip. -/
def hideComparisonTooltip (st : TooltipState) : TooltipState :=
  { st with comparisonTooltipOpacity := 0 }

/-- C9 counterexample: one render batch appends two tooltip divs to the
body — one per chart that uses a tooltip — so the tooltip element is not a
single process-wide instance shared by all charts. -/
theorem c9_counterexample :
    ¬ ((integrateVisualizationsDom ⟨0, 0, 0, 0⟩).bodyTooltips = 1) := by
  decide

/-- C9 amended: the scatter plot and the comparison chart each append
their own tooltip div (two per render batch); each show-call sets only the
owning chart tooltip to opacity 0.9 (a repeated show wins trivially), each
pointer-leave hides only that tooltip, and both tooltips can be shown, so
no at-most-one-visible invariant links the two instances. -/
theorem c9_tooltip :
    (integrateVisualizationsDom ⟨0, 0, 0, 0⟩).bodyTooltips = 2 ∧
    (∀ st : TooltipState,
      (showScatterTooltip st).scatterTooltipOpacity = 9/10 ∧
      (showScatterTooltip st).comparisonTooltipOpacity =
        st.comparisonTooltipOpacity) ∧
    (∀ st : TooltipState, (hideScatterTooltip st).scatterTooltipOpacity = 0) ∧
    (∀ st : TooltipState,
      (showComparisonTooltip st).comparisonTooltipOpacity = 9/10 ∧
      (showComparisonTooltip st).scatterTooltipOpacity =
        st.scatterTooltipOpacity) ∧
    (∀ st : TooltipState,
      (hideComparisonTooltip st).comparisonTooltipOpacity = 0) ∧
    (∀ st : TooltipState,
      showScatterTooltip (showScatterTooltip st) = showScatterTooltip st) ∧
    (∀ st : TooltipState,
      (hideScatterTooltip (showScatterTooltip st)).scatterTooltipOpacity = 0) ∧
    (showComparisonTooltip (showScatterTooltip
      initTooltips)).scatterTooltipOpacity = 9/10 ∧
    (showComparisonTooltip (showScatterTooltip
      initTooltips)).comparisonTooltipOpacity = 9/10 :=
  ⟨rfl, fun _ => ⟨rfl, rfl⟩, fun _ => rfl, fun _ => ⟨rfl, rfl⟩,
    fun _ => rfl, fun _ => rfl, fun _ => rfl, rfl, rfl⟩

/-- One visual mark of the scatter plot: its fill presentation attribute,
its opacity presentation attribute (absent until some handler sets it),
and its inline style opacity set at creation. -/
structure MarkState where
  fillAttr : String
  opacityAttr : Option ℚ
  styleOpacity : ℚ
deriving DecidableEq

/-- A scatter circle as created: fill attribute Spotify green, no opacity
attribute, inline style opacity 0.7. -/
def initialCircle : MarkState := ⟨"#1DB954", none, 7/10⟩

/-- A mark together with the tooltip opacity of its chart. -/
structure HoverState where
  mark : MarkState
  tooltipOpacity : ℚ
deriving DecidableEq

/-- Mouseover handler of a scatter circle: darken the fill to #191414, set
the opacity attribute to 0.5, and show the tooltip at 0.9. -/
def scatterMouseover (s : HoverState) : HoverState :=
  { mark := { s.mark with fillAttr := "#191414", opacityAttr := some (1/2) }
    tooltipOpacity := 9/10 }

/-- Mouseout handler of a scatter circle: set the fill back to #1DB954,
set the opacity attribute to 1, and hide the tooltip. -/
def scatterMouseout (s : HoverState) : HoverState :=
  { mark := { s.mark with fillAttr := "#1DB954", opacityAttr := some 1 }
    tooltipOpacity := 0 }

/-- C10 counterexample: on a freshly created circle, pointer-enter does
not raise the mark opacity to 1 (it sets the attribute to 0.5), and
enter-then-leave does not restore the mark state before the enter (the
opacity attribute ends at 1, whereas it was absent). -/
theorem c10_counterexample :
    ¬ ((scatterMouseover ⟨initialCircle, 0⟩).mark.opacityAttr = some 1 ∧
      (scatterMouseout (scatterMouseover ⟨initialCircle, 0⟩)).mark =
        initialCircle) := by
  intro h
  have h2 : (1 : ℚ)/2 = 1 := Option.some.inj h.1
  norm_num at h2

/-- C10 amended: pointer-enter darkens the fill to #191414, sets the
opacity attribute to 0.5 and shows the tooltip at 0.9; pointer-leave sets
the fill back to #1DB954, the opacity attribute to 1 and hides the
tooltip.  After enter-then-leave the fill and the untouched inline style
opacity match the created circle, but the opacity attribute ends at 1
instead of its absent pre-enter value. -/
theorem c10_hover :
    (∀ s : HoverState,
      (scatterMouseover s).mark.fillAttr = "#191414" ∧
      (scatterMouseover s).mark.opacityAttr = some (1/2) ∧
      (scatterMouseover s).tooltipOpacity = 9/10 ∧
      (scatterMouseover s).mark.styleOpacity = s.mark.styleOpacity) ∧
    (∀ s : HoverState,
      (scatterMouseout s).mark.fillAttr = "#1DB954" ∧
      (scatterMouseout s).mark.opacityAttr = some 1 ∧
      (scatterMouseout s).tooltipOpacity = 0 ∧
      (scatterMouseout s).mark.styleOpacity = s.mark.styleOpacity) ∧
    (scatterMouseout (scatterMouseover ⟨initialCircle, 0⟩)).mark.fillAttr =
      initialCircle.fillAttr ∧
    (scatterMouseout (scatterMouseover ⟨initialCircle, 0⟩)).mark.styleOpacity =
      initialCircle.styleOpacity ∧
    (scatterMouseout (scatterMouseover ⟨initialCircle, 0⟩)).mark.opacityAttr ≠
      initialCircle.opacityAttr := by
  refine ⟨fun s => ⟨rfl, rfl, rfl, rfl⟩, fun s => ⟨rfl, rfl, rfl, rfl⟩,
    rfl, rfl, fun h => Option.noConfusion h⟩

end SpotifyDash
